import Mathlib

/-!
Verification of the Promogen CAPTCHA-solving and submission pipeline.

The definitions below are a shallow embedding of `src/main.go`.  Remote
effects (HTTP calls, wall-clock readings) are passed in as oracles: a poll
oracle gives the outcome of the `getTaskResult` call made on each loop
iteration, and an elapsed oracle gives the value of
`time.Since(startTime).Seconds()` observed at that iteration's timeout
check.  Times are rationals standing in for Go's float64 seconds.
-/

namespace Promogen

/-- Decidable equality for `Except`, used to evaluate the embedding on
concrete runs. -/
instance {ε α : Type} [DecidableEq ε] [DecidableEq α] :
    DecidableEq (Except ε α) := fun a b =>
  match a, b with
  | Except.ok x, Except.ok y =>
    if h : x = y then isTrue (by rw [h]) else isFalse (by simp [h])
  | Except.ok _, Except.error _ => isFalse (by simp)
  | Except.error _, Except.ok _ => isFalse (by simp)
  | Except.error x, Except.error y =>
    if h : x = y then isTrue (by rw [h]) else isFalse (by simp [h])

/-- Outcome of one `getTaskResult` poll: either the transport/decode step
errored (`pollError`, the `err != nil` branch at the `continue`), or a
result decoded with some `status` and `solution.gRecaptchaResponse`. -/
inductive PollOutcome where
  | pollError : PollOutcome
  | result (status : String) (gRecaptchaResponse : String) : PollOutcome
deriving DecidableEq, Repr

/-- Terminal failures of the solve functions: the create call failed or its
response did not decode (`providerError`), the wall-clock budget was
exceeded (`timeoutError`, "captcha solving timed out"), or all retries were
used ("captcha solving failed after n attempts"). -/
inductive SolveError where
  | providerError : SolveError
  | timeoutError : SolveError
  | retriesExhausted : SolveError
deriving DecidableEq, Repr

/-- Outcome of the `createTask` call: transport error, JSON decode error, or
a decoded response carrying the task identifier field (Go's decoder leaves
the zero value — `""` for EZ-Captcha, `0` for 2captcha — when the field is
missing or empty). -/
inductive CreateOutcome (α : Type) where
  | transportError : CreateOutcome α
  | decodeError : CreateOutcome α
  | response (taskId : α) : CreateOutcome α
deriving DecidableEq, Repr

/-- The polling loop shared verbatim by `solveCaptchaWithEZCaptcha`
(main.go:373-392) and `solveCaptchaWith2Captcha` (main.go:449-468), started
at attempt index `i` with `fuel` iterations remaining
(`fuel = maxCaptchaRetries - i`).  Each iteration sleeps, polls once, and
then: a poll error `continue`s; a `"ready"` status returns the token; an
elapsed time strictly above `captchaTimeout` returns the timeout error;
otherwise the next iteration runs.  The second component counts the poll
calls performed. -/
def solveLoopFrom (captchaTimeout : ℚ) (poll : Nat → PollOutcome)
    (elapsed : Nat → ℚ) : Nat → Nat → Except SolveError String × Nat
  | _, 0 => (Except.error SolveError.retriesExhausted, 0)
  | i, fuel + 1 =>
    match poll i with
    | PollOutcome.pollError =>
      let r := solveLoopFrom captchaTimeout poll elapsed (i + 1) fuel
      (r.1, r.2 + 1)
    | PollOutcome.result status token =>
      if status = "ready" then (Except.ok token, 1)
      else if elapsed i > captchaTimeout then (Except.error SolveError.timeoutError, 1)
      else
        let r := solveLoopFrom captchaTimeout poll elapsed (i + 1) fuel
        (r.1, r.2 + 1)

/-- `solveCaptchaWithEZCaptcha` (main.go:343-393): create a task, fail on a
transport or decode error of the create call, and otherwise enter the
polling loop with the decoded task identifier (which is never validated).
The poll oracle receives the task identifier the loop polls with. -/
def solveCaptchaWithEZCaptcha (create : CreateOutcome String)
    (maxCaptchaRetries : Nat) (captchaTimeout : ℚ)
    (poll : String → Nat → PollOutcome) (elapsed : Nat → ℚ) :
    Except SolveError String × Nat :=
  match create with
  | CreateOutcome.transportError => (Except.error SolveError.providerError, 0)
  | CreateOutcome.decodeError => (Except.error SolveError.providerError, 0)
  | CreateOutcome.response taskId =>
    solveLoopFrom captchaTimeout (poll taskId) elapsed 0 maxCaptchaRetries

/-- `solveCaptchaWith2Captcha` (main.go:420-469): identical loop, integer
task identifier (zero when the create response lacks the field). -/
def solveCaptchaWith2Captcha (create : CreateOutcome Int)
    (maxCaptchaRetries : Nat) (captchaTimeout : ℚ)
    (poll : Int → Nat → PollOutcome) (elapsed : Nat → ℚ) :
    Except SolveError String × Nat :=
  match create with
  | CreateOutcome.transportError => (Except.error SolveError.providerError, 0)
  | CreateOutcome.decodeError => (Except.error SolveError.providerError, 0)
  | CreateOutcome.response taskId =>
    solveLoopFrom captchaTimeout (poll taskId) elapsed 0 maxCaptchaRetries

/-- An HTTP response of the promo submission endpoint, reduced to the fields
the code inspects: the status code and the response cookies in order, as
(name, value) pairs. -/
structure HttpResponse where
  statusCode : Nat
  cookies : List (String × String)
deriving DecidableEq, Repr

/-- Outcome of one HTTP submission request: transport failure or a response. -/
inductive HttpOutcome where
  | transportError : HttpOutcome
  | response (resp : HttpResponse) : HttpOutcome
deriving DecidableEq, Repr

/-- Failures of the submission functions: transport error, or
"promo submission failed with status code: d". -/
inductive SubmitError where
  | transportError : SubmitError
  | submissionRejected (statusCode : Nat) : SubmitError
deriving DecidableEq, Repr

/-- The cookie scan of main.go:541-546: first cookie named `cf_clearance`
wins (the loop breaks); the default is the empty string. -/
def findCfClearance : List (String × String) → String
  | [] => ""
  | (name, value) :: rest =>
    if name = "cf_clearance" then value else findCfClearance rest

/-- `submitPromoEntry` (main.go:496-549), given the outcome of its POST: a
transport error propagates; a status code different from 200
(`http.StatusOK`) is rejected with that code; on 200 the `cf_clearance`
cookie value (possibly empty) is returned. -/
def submitPromoEntry (outcome : HttpOutcome) : Except SubmitError String :=
  match outcome with
  | HttpOutcome.transportError => Except.error SubmitError.transportError
  | HttpOutcome.response resp =>
    if resp.statusCode ≠ 200 then
      Except.error (SubmitError.submissionRejected resp.statusCode)
    else Except.ok (findCfClearance resp.cookies)

/-- `submitPromoEntryWithCookie` (main.go:551-596): same status check,
always returns the empty string on success (no clearance extraction). -/
def submitPromoEntryWithCookie (outcome : HttpOutcome) : Except SubmitError String :=
  match outcome with
  | HttpOutcome.transportError => Except.error SubmitError.transportError
  | HttpOutcome.response resp =>
    if resp.statusCode ≠ 200 then
      Except.error (SubmitError.submissionRejected resp.statusCode)
    else Except.ok ""

/-- Errors surfaced by one submission cycle (`submitEntry`), wrapping the
solve-stage or primary-submission-stage failure. -/
inductive CycleError where
  | captchaError (e : SolveError) : CycleError
  | submissionError (e : SubmitError) : CycleError
deriving DecidableEq, Repr

/-- The arguments of one `submitPromoEntryWithCookie` call made by the
secondary-submission loop. -/
structure SecondaryCall where
  email : String
  captchaToken : String
  cfClearance : String
deriving DecidableEq, Repr

/-- Observable trace of one `submitEntry` cycle: its returned error (or
success), the secondary submission calls made with their arguments, the
outcome of each such call (ignored by the code beyond a debug print), and
whether `logSubmission` ran. -/
structure CycleTrace where
  result : Except CycleError Unit
  secondaryCalls : List SecondaryCall
  secondaryResults : List (Except SubmitError String)
  logged : Bool

/-- `submitEntry` (main.go:215-265) from the CAPTCHA stage on, with the
email already obtained, the solve outcome given, and HTTP outcomes for the
primary and each secondary submission given as oracles.  A solve error
aborts; a primary-submission error aborts before any secondary attempt and
before logging; on success with a non-empty `cf_clearance`, exactly 5
secondary submissions run with the same email and captcha token plus the
clearance cookie, their errors only debug-printed; then the submission is
logged and the cycle succeeds. -/
def submitEntry (email : String) (solveOutcome : Except SolveError String)
    (primary : HttpOutcome) (secondary : Nat → HttpOutcome) : CycleTrace :=
  match solveOutcome with
  | Except.error e =>
    { result := Except.error (CycleError.captchaError e), secondaryCalls := [],
      secondaryResults := [], logged := false }
  | Except.ok captchaToken =>
    match submitPromoEntry primary with
    | Except.error e =>
      { result := Except.error (CycleError.submissionError e), secondaryCalls := [],
        secondaryResults := [], logged := false }
    | Except.ok cfClearance =>
      if cfClearance ≠ "" then
        { result := Except.ok (),
          secondaryCalls := (List.range 5).map fun _ =>
            { email := email, captchaToken := captchaToken, cfClearance := cfClearance },
          secondaryResults := (List.range 5).map fun i =>
            submitPromoEntryWithCookie (secondary i),
          logged := true }
      else
        { result := Except.ok (), secondaryCalls := [],
          secondaryResults := [], logged := true }

/-- Attempt `i` lets the polling loop continue to the next iteration: the
poll errored (the `continue` branch), or it decoded to a non-ready status
with the elapsed time not above the budget. -/
def continuesAt (captchaTimeout : ℚ) (poll : Nat → PollOutcome)
    (elapsed : Nat → ℚ) (i : Nat) : Bool :=
  match poll i with
  | PollOutcome.pollError => true
  | PollOutcome.result status _ =>
    status != "ready" && !(decide (elapsed i > captchaTimeout))

/-- The poll script of the spec's provider-A scenario: attempts 0 and 1
decode to status "processing", attempt 2 decodes to "ready" with solution
token "XYZ". -/
def scenarioPoll (_ : String) (i : Nat) : PollOutcome :=
  if i < 2 then PollOutcome.result "processing" ""
  else PollOutcome.result "ready" "XYZ"

/-- Elapsed wall-clock readings for the scenario: 10, 20, 30 seconds at
attempts 0, 1, 2 (one 10-second sleep precedes each poll), all well under
the default 120-second budget. -/
def scenarioElapsed : Nat → ℚ
  | 0 => 10
  | 1 => 20
  | _ => 30

/-- The poll at attempt `i` errored, so the loop continues past it. -/
theorem continuesAt_of_pollError (t : ℚ) (poll : Nat → PollOutcome)
    (elapsed : Nat → ℚ) (i : Nat) (hp : poll i = PollOutcome.pollError) :
    continuesAt t poll elapsed i = true := by
  unfold continuesAt
  rw [hp]

/-- The poll at attempt `i` decoded to a non-ready status within the budget,
so the loop continues past it. -/
theorem continuesAt_of_pending (t : ℚ) (poll : Nat → PollOutcome)
    (elapsed : Nat → ℚ) (i : Nat) (s tok : String)
    (hp : poll i = PollOutcome.result s tok) (hs : s ≠ "ready")
    (ht : ¬ elapsed i > t) : continuesAt t poll elapsed i = true := by
  unfold continuesAt
  rw [hp]
  simp [hs, ht]

/-- One continuing iteration of the polling loop: the run from attempt `i`
is the run from attempt `i + 1` with one more poll counted. -/
theorem solveLoopFrom_continue (t : ℚ) (poll : Nat → PollOutcome)
    (elapsed : Nat → ℚ) (i fuel : Nat)
    (h : continuesAt t poll elapsed i = true) :
    solveLoopFrom t poll elapsed i (fuel + 1) =
      ((solveLoopFrom t poll elapsed (i + 1) fuel).1,
       (solveLoopFrom t poll elapsed (i + 1) fuel).2 + 1) := by
  cases hp : poll i with
  | pollError => simp only [solveLoopFrom, hp]
  | result status token =>
    unfold continuesAt at h
    rw [hp] at h
    simp only [Bool.and_eq_true, bne_iff_ne, ne_eq, Bool.not_eq_true',
      decide_eq_false_iff_not] at h
    simp only [solveLoopFrom, hp, if_neg h.1, if_neg h.2]

/-- Skipping `k` continuing attempts: the run from attempt `i` with
`fuel + k` iterations left is the run from attempt `i + k` with `k` more
polls counted. -/
theorem solveLoopFrom_skip (t : ℚ) (poll : Nat → PollOutcome)
    (elapsed : Nat → ℚ) (k : Nat) :
    ∀ i fuel, (∀ j, j < k → continuesAt t poll elapsed (i + j) = true) →
    solveLoopFrom t poll elapsed i (fuel + k) =
      ((solveLoopFrom t poll elapsed (i + k) fuel).1,
       (solveLoopFrom t poll elapsed (i + k) fuel).2 + k) := by
  induction k with
  | zero => intro i fuel _; simp
  | succ k ih =>
    intro i fuel h
    have h0 : continuesAt t poll elapsed i = true := by
      simpa using h 0 (Nat.succ_pos k)
    have hrest : ∀ j, j < k → continuesAt t poll elapsed (i + 1 + j) = true := by
      intro j hj
      have hx := h (j + 1) (Nat.succ_lt_succ hj)
      have he : i + (j + 1) = i + 1 + j := by omega
      rwa [he] at hx
    have step := solveLoopFrom_continue t poll elapsed i (fuel + k) h0
    have ihs := ih (i + 1) fuel hrest
    have hik : i + 1 + k = i + (k + 1) := by omega
    rw [hik] at ihs
    have hfa : fuel + (k + 1) = (fuel + k) + 1 := rfl
    rw [hfa, step, ihs]
    simp [Nat.add_assoc]

/-- A ready poll at attempt `i` exits the loop at once with the token. -/
theorem solveLoopFrom_ready (t : ℚ) (poll : Nat → PollOutcome)
    (elapsed : Nat → ℚ) (i fuel : Nat) (token : String)
    (h : poll i = PollOutcome.result "ready" token) :
    solveLoopFrom t poll elapsed i (fuel + 1) = (Except.ok token, 1) := by
  simp [solveLoopFrom, h]

/-- A decoded non-ready poll at attempt `i` with the elapsed time above the
budget exits the loop at once with the timeout error. -/
theorem solveLoopFrom_timeoutHit (t : ℚ) (poll : Nat → PollOutcome)
    (elapsed : Nat → ℚ) (i fuel : Nat) (status token : String)
    (hp : poll i = PollOutcome.result status token) (hs : status ≠ "ready")
    (ht : elapsed i > t) :
    solveLoopFrom t poll elapsed i (fuel + 1) =
      (Except.error SolveError.timeoutError, 1) := by
  simp only [solveLoopFrom, hp]
  rw [if_neg hs, if_pos ht]

/-- The polling loop never produces the provider error: that error only
arises from the create step. -/
theorem solveLoopFrom_ne_providerError (t : ℚ) (poll : Nat → PollOutcome)
    (elapsed : Nat → ℚ) :
    ∀ fuel i, (solveLoopFrom t poll elapsed i fuel).1 ≠
      Except.error SolveError.providerError := by
  intro fuel
  induction fuel with
  | zero => intro i; simp [solveLoopFrom]
  | succ fuel ih =>
    intro i
    cases hp : poll i with
    | pollError => simpa only [solveLoopFrom, hp] using ih (i + 1)
    | result status token =>
      by_cases hs : status = "ready"
      · simp [solveLoopFrom, hp, hs]
      · by_cases ht : elapsed i > t
        · simp [solveLoopFrom, hp, hs, ht]
        · simpa [solveLoopFrom, hp, hs, ht] using ih (i + 1)

/-- A loop in which every one of the `n` attempts continues performs all
`n` polls and exhausts its retries. -/
theorem solveLoopFrom_exhausts (t : ℚ) (poll : Nat → PollOutcome)
    (elapsed : Nat → ℚ) (n : Nat)
    (h : ∀ j, j < n → continuesAt t poll elapsed j = true) :
    solveLoopFrom t poll elapsed 0 n =
      (Except.error SolveError.retriesExhausted, n) := by
  have hs := solveLoopFrom_skip t poll elapsed n 0 0
    (by intro j hj; simpa using h j hj)
  rw [Nat.zero_add] at hs
  simpa [solveLoopFrom] using hs

/-- A loop whose first `k` attempts continue and whose attempt `k` polls
ready returns the token after exactly `k + 1` polls. -/
theorem solveLoopFrom_ready_at (t : ℚ) (poll : Nat → PollOutcome)
    (elapsed : Nat → ℚ) (n k : Nat) (token : String) (hk : k < n)
    (hready : poll k = PollOutcome.result "ready" token)
    (hprev : ∀ j, j < k → continuesAt t poll elapsed j = true) :
    solveLoopFrom t poll elapsed 0 n = (Except.ok token, k + 1) := by
  obtain ⟨m, hm⟩ : ∃ m, n = (m + 1) + k := ⟨n - k - 1, by omega⟩
  subst hm
  have hs := solveLoopFrom_skip t poll elapsed k 0 (m + 1)
    (by intro j hj; simpa using hprev j hj)
  rw [Nat.zero_add] at hs
  rw [hs, solveLoopFrom_ready t poll elapsed k m token hready]
  simp [Nat.add_comm]

/-- A loop whose first `k` attempts continue and whose attempt `k` decodes
non-ready while over the budget returns the timeout error after exactly
`k + 1` polls. -/
theorem solveLoopFrom_timeout_at (t : ℚ) (poll : Nat → PollOutcome)
    (elapsed : Nat → ℚ) (n k : Nat) (status token : String) (hk : k < n)
    (hp : poll k = PollOutcome.result status token) (hs : status ≠ "ready")
    (ht : elapsed k > t)
    (hprev : ∀ j, j < k → continuesAt t poll elapsed j = true) :
    solveLoopFrom t poll elapsed 0 n =
      (Except.error SolveError.timeoutError, k + 1) := by
  obtain ⟨m, hm⟩ : ∃ m, n = (m + 1) + k := ⟨n - k - 1, by omega⟩
  subst hm
  have hsk := solveLoopFrom_skip t poll elapsed k 0 (m + 1)
    (by intro j hj; simpa using hprev j hj)
  rw [Nat.zero_add] at hsk
  rw [hsk, solveLoopFrom_timeoutHit t poll elapsed k m status token hp hs ht]
  simp [Nat.add_comm]

/-- The cookie scan returns the value of the (first) `cf_clearance` entry
when all entries before it have other names. -/
theorem findCfClearance_append (pre post : List (String × String)) (v : String)
    (hpre : ∀ p ∈ pre, p.1 ≠ "cf_clearance") :
    findCfClearance (pre ++ ("cf_clearance", v) :: post) = v := by
  induction pre with
  | nil => simp [findCfClearance]
  | cons p rest ih =>
    obtain ⟨name, value⟩ := p
    have hn : name ≠ "cf_clearance" := hpre (name, value) (List.mem_cons_self _ _)
    simp only [List.cons_append, findCfClearance]
    rw [if_neg hn]
    exact ih fun q hq => hpre q (List.mem_cons_of_mem _ hq)

/-- The cookie scan returns the empty string when no entry is named
`cf_clearance`. -/
theorem findCfClearance_none (cookies : List (String × String))
    (h : ∀ p ∈ cookies, p.1 ≠ "cf_clearance") :
    findCfClearance cookies = "" := by
  induction cookies with
  | nil => rfl
  | cons p rest ih =>
    obtain ⟨name, value⟩ := p
    have hn : name ≠ "cf_clearance" := h (name, value) (List.mem_cons_self _ _)
    simp only [findCfClearance]
    rw [if_neg hn]
    exact ih fun q hq => h q (List.mem_cons_of_mem _ hq)

/-- C3: against a provider whose polls always decode to a pending
(non-ready, non-error) status, with the wall-clock budget never exceeded
during the loop, both Solve variants perform exactly `n = maxCaptchaRetries`
poll calls and then return the retries-exhausted error. -/
theorem solve_always_pending_exhausts_retries
    (n : Nat) (t : ℚ) (taskId : String) (taskId2 : Int)
    (poll : String → Nat → PollOutcome) (poll2 : Int → Nat → PollOutcome)
    (elapsed : Nat → ℚ)
    (hpend : ∀ i, i < n → ∃ s tok, poll taskId i = PollOutcome.result s tok ∧
      s ≠ "ready")
    (hpend2 : ∀ i, i < n → ∃ s tok, poll2 taskId2 i = PollOutcome.result s tok ∧
      s ≠ "ready")
    (htime : ∀ i, i < n → ¬ elapsed i > t) :
    solveCaptchaWithEZCaptcha (CreateOutcome.response taskId) n t poll elapsed
      = (Except.error SolveError.retriesExhausted, n) ∧
    solveCaptchaWith2Captcha (CreateOutcome.response taskId2) n t poll2 elapsed
      = (Except.error SolveError.retriesExhausted, n) := by
  constructor
  · show solveLoopFrom t (poll taskId) elapsed 0 n = _
    apply solveLoopFrom_exhausts
    intro j hj
    obtain ⟨s, tok, hp, hs⟩ := hpend j hj
    exact continuesAt_of_pending t (poll taskId) elapsed j s tok hp hs (htime j hj)
  · show solveLoopFrom t (poll2 taskId2) elapsed 0 n = _
    apply solveLoopFrom_exhausts
    intro j hj
    obtain ⟨s, tok, hp, hs⟩ := hpend2 j hj
    exact continuesAt_of_pending t (poll2 taskId2) elapsed j s tok hp hs (htime j hj)

/-- Witness for C3: two retries, polls always "processing", elapsed 10 of a
120-second budget — both variants poll twice and exhaust their retries. -/
theorem solve_always_pending_exhausts_retries_witness :
    solveCaptchaWithEZCaptcha (CreateOutcome.response "abc") 2 120
        (fun _ _ => PollOutcome.result "processing" "") (fun _ => 10)
      = (Except.error SolveError.retriesExhausted, 2) ∧
    solveCaptchaWith2Captcha (CreateOutcome.response 7) 2 120
        (fun _ _ => PollOutcome.result "processing" "") (fun _ => 10)
      = (Except.error SolveError.retriesExhausted, 2) :=
  solve_always_pending_exhausts_retries 2 120 "abc" 7
    (fun _ _ => PollOutcome.result "processing" "")
    (fun _ _ => PollOutcome.result "processing" "") (fun _ => 10)
    (fun _ _ => ⟨"processing", "", rfl, by decide⟩)
    (fun _ _ => ⟨"processing", "", rfl, by decide⟩)
    (fun _ _ => (by decide : ¬ (10 : ℚ) > 120))

/-- C4: if attempt `k < n` polls ready with `token` and every earlier
attempt decoded to a non-ready status within the budget, Solve returns
`token` after exactly `k + 1` poll calls and polls no further; in
particular, for the scenario — create response with taskId "abc", then
polls "processing", "processing", "ready" with solution "XYZ" — Solve
returns "XYZ" after exactly 3 polls. -/
theorem solve_ready_returns_token
    (n k : Nat) (t : ℚ) (taskId token : String)
    (poll : String → Nat → PollOutcome) (elapsed : Nat → ℚ) (hk : k < n)
    (hready : poll taskId k = PollOutcome.result "ready" token)
    (hprev : ∀ j, j < k → ∃ s tok, poll taskId j = PollOutcome.result s tok ∧
      s ≠ "ready" ∧ ¬ elapsed j > t) :
    solveCaptchaWithEZCaptcha (CreateOutcome.response taskId) n t poll elapsed
      = (Except.ok token, k + 1) ∧
    solveCaptchaWithEZCaptcha (CreateOutcome.response "abc") 5 120
        scenarioPoll scenarioElapsed = (Except.ok "XYZ", 3) := by
  constructor
  · show solveLoopFrom t (poll taskId) elapsed 0 n = _
    apply solveLoopFrom_ready_at t (poll taskId) elapsed n k token hk hready
    intro j hj
    obtain ⟨s, tok, hp, hs, ht⟩ := hprev j hj
    exact continuesAt_of_pending t (poll taskId) elapsed j s tok hp hs ht
  · decide

/-- Witness for C4, the scenario itself: "XYZ" after exactly 3 polls. -/
theorem solve_ready_returns_token_witness :
    solveCaptchaWithEZCaptcha (CreateOutcome.response "abc") 5 120
        scenarioPoll scenarioElapsed = (Except.ok "XYZ", 3) :=
  (solve_ready_returns_token 5 2 120 "abc" "XYZ" scenarioPoll scenarioElapsed
    (by decide) (by decide)
    (by
      intro j hj
      interval_cases j
      · exact ⟨"processing", "", by decide, by decide, by decide⟩
      · exact ⟨"processing", "", by decide, by decide, by decide⟩)).1

/-- C10: the ready check precedes the timeout check in each loop iteration,
so if attempt `k < n` polls ready (every earlier attempt having continued)
while the elapsed time at attempt `k` already exceeds the budget, both
Solve variants still return the solved token after `k + 1` polls rather
than the timeout error. -/
theorem solve_ready_wins_over_timeout
    (n k : Nat) (t : ℚ) (taskId token : String) (taskId2 : Int)
    (token2 : String)
    (poll : String → Nat → PollOutcome) (poll2 : Int → Nat → PollOutcome)
    (elapsed : Nat → ℚ) (hk : k < n)
    (hready : poll taskId k = PollOutcome.result "ready" token)
    (hready2 : poll2 taskId2 k = PollOutcome.result "ready" token2)
    (hlate : elapsed k > t)
    (hprev : ∀ j, j < k → continuesAt t (poll taskId) elapsed j = true)
    (hprev2 : ∀ j, j < k → continuesAt t (poll2 taskId2) elapsed j = true) :
    solveCaptchaWithEZCaptcha (CreateOutcome.response taskId) n t poll elapsed
      = (Except.ok token, k + 1) ∧
    solveCaptchaWith2Captcha (CreateOutcome.response taskId2) n t poll2 elapsed
      = (Except.ok token2, k + 1) := by
  constructor
  · show solveLoopFrom t (poll taskId) elapsed 0 n = _
    exact solveLoopFrom_ready_at t (poll taskId) elapsed n k token hk hready hprev
  · show solveLoopFrom t (poll2 taskId2) elapsed 0 n = _
    exact solveLoopFrom_ready_at t (poll2 taskId2) elapsed n k token2 hk
      hready2 hprev2

/-- Witness for C10: budget 0 already exceeded (elapsed 1) at attempt 0,
yet the ready poll makes both variants return the token. -/
theorem solve_ready_wins_over_timeout_witness :
    solveCaptchaWithEZCaptcha (CreateOutcome.response "abc") 1 0
        (fun _ _ => PollOutcome.result "ready" "XYZ") (fun _ => 1)
      = (Except.ok "XYZ", 1) ∧
    solveCaptchaWith2Captcha (CreateOutcome.response 7) 1 0
        (fun _ _ => PollOutcome.result "ready" "ZZZ") (fun _ => 1)
      = (Except.ok "ZZZ", 1) :=
  solve_ready_wins_over_timeout 1 0 0 "abc" "XYZ" 7 "ZZZ"
    (fun _ _ => PollOutcome.result "ready" "XYZ")
    (fun _ _ => PollOutcome.result "ready" "ZZZ") (fun _ => 1)
    (by decide) rfl rfl ((by decide : (0 : ℚ) < 1))
    (fun j hj => absurd hj (Nat.not_lt_zero j))
    (fun j hj => absurd hj (Nat.not_lt_zero j))

/-- C1 counterexample: with budget 0 and elapsed time 1 already above it at
attempt 0, a ready poll still returns the token instead of the timeout
error, and a run whose polls all error returns the retries-exhausted error,
never checking the timeout — the timeout is not independent of the
outcomes of the polls. -/
theorem timeout_not_outcome_independent :
    solveCaptchaWithEZCaptcha (CreateOutcome.response "abc") 2 0
        (fun _ _ => PollOutcome.result "ready" "XYZ") (fun _ => 1)
      = (Except.ok "XYZ", 1) ∧
    solveCaptchaWithEZCaptcha (CreateOutcome.response "abc") 2 0
        (fun _ _ => PollOutcome.pollError) (fun _ => 1)
      = (Except.error SolveError.retriesExhausted, 2) ∧
    (1 : ℚ) > 0 := by decide

/-- C1 amended: the timeout check runs only on an attempt whose poll
decodes to a non-ready status.  If attempt `k < n` does so while the
elapsed time exceeds the budget `t` (every earlier attempt having
continued), both Solve variants fail with the timeout error immediately,
after `k + 1` polls, with attempts remaining; a ready poll or a poll error
at such an attempt does not produce the timeout error. -/
theorem solve_timeout_on_late_pending
    (n k : Nat) (t : ℚ) (taskId status token : String) (taskId2 : Int)
    (status2 token2 : String)
    (poll : String → Nat → PollOutcome) (poll2 : Int → Nat → PollOutcome)
    (elapsed : Nat → ℚ) (hk : k < n)
    (hp : poll taskId k = PollOutcome.result status token)
    (hs : status ≠ "ready")
    (hp2 : poll2 taskId2 k = PollOutcome.result status2 token2)
    (hs2 : status2 ≠ "ready")
    (hlate : elapsed k > t)
    (hprev : ∀ j, j < k → continuesAt t (poll taskId) elapsed j = true)
    (hprev2 : ∀ j, j < k → continuesAt t (poll2 taskId2) elapsed j = true) :
    solveCaptchaWithEZCaptcha (CreateOutcome.response taskId) n t poll elapsed
      = (Except.error SolveError.timeoutError, k + 1) ∧
    solveCaptchaWith2Captcha (CreateOutcome.response taskId2) n t poll2 elapsed
      = (Except.error SolveError.timeoutError, k + 1) := by
  constructor
  · show solveLoopFrom t (poll taskId) elapsed 0 n = _
    exact solveLoopFrom_timeout_at t (poll taskId) elapsed n k status token hk
      hp hs hlate hprev
  · show solveLoopFrom t (poll2 taskId2) elapsed 0 n = _
    exact solveLoopFrom_timeout_at t (poll2 taskId2) elapsed n k status2 token2
      hk hp2 hs2 hlate hprev2

/-- Witness for the amended C1: budget 0, elapsed 1, pending poll at
attempt 0 of 2 — timeout error after a single poll, one attempt unused. -/
theorem solve_timeout_on_late_pending_witness :
    solveCaptchaWithEZCaptcha (CreateOutcome.response "abc") 2 0
        (fun _ _ => PollOutcome.result "processing" "") (fun _ => 1)
      = (Except.error SolveError.timeoutError, 1) ∧
    solveCaptchaWith2Captcha (CreateOutcome.response 7) 2 0
        (fun _ _ => PollOutcome.result "processing" "") (fun _ => 1)
      = (Except.error SolveError.timeoutError, 1) :=
  solve_timeout_on_late_pending 2 0 0 "abc" "processing" "" 7 "processing" ""
    (fun _ _ => PollOutcome.result "processing" "")
    (fun _ _ => PollOutcome.result "processing" "") (fun _ => 1)
    (by decide) rfl (by decide) rfl (by decide) ((by decide : (0 : ℚ) < 1))
    (fun j hj => absurd hj (Nat.not_lt_zero j))
    (fun j hj => absurd hj (Nat.not_lt_zero j))

/-- C9 counterexample: a create response decoding with an empty task
identifier (EZ-Captcha) or the zero identifier (2captcha) is not rejected:
Solve enters the polling loop against it — one poll is performed here — and
returns the retries-exhausted error, not the provider error. -/
theorem empty_taskId_is_polled :
    solveCaptchaWithEZCaptcha (CreateOutcome.response "") 1 120
        (fun taskId _ => PollOutcome.result "processing" taskId) (fun _ => 10)
      = (Except.error SolveError.retriesExhausted, 1) ∧
    solveCaptchaWith2Captcha (CreateOutcome.response 0) 1 120
        (fun _ _ => PollOutcome.result "processing" "") (fun _ => 10)
      = (Except.error SolveError.retriesExhausted, 1) := by decide

/-- C9 amended: Solve fails with the provider error, with no poll
performed, exactly when the create call has a transport error or its
response fails to decode; a decoded task identifier — empty, zero or not —
is never validated, and no run that reaches the loop ever produces the
provider error. -/
theorem providerError_exactly_on_create_failure
    (n : Nat) (t : ℚ) (taskId : String) (taskId2 : Int)
    (poll : String → Nat → PollOutcome) (poll2 : Int → Nat → PollOutcome)
    (elapsed : Nat → ℚ) :
    solveCaptchaWithEZCaptcha CreateOutcome.transportError n t poll elapsed
      = (Except.error SolveError.providerError, 0) ∧
    solveCaptchaWithEZCaptcha CreateOutcome.decodeError n t poll elapsed
      = (Except.error SolveError.providerError, 0) ∧
    (solveCaptchaWithEZCaptcha (CreateOutcome.response taskId) n t poll
        elapsed).1 ≠ Except.error SolveError.providerError ∧
    solveCaptchaWith2Captcha CreateOutcome.transportError n t poll2 elapsed
      = (Except.error SolveError.providerError, 0) ∧
    solveCaptchaWith2Captcha CreateOutcome.decodeError n t poll2 elapsed
      = (Except.error SolveError.providerError, 0) ∧
    (solveCaptchaWith2Captcha (CreateOutcome.response taskId2) n t poll2
        elapsed).1 ≠ Except.error SolveError.providerError := by
  refine ⟨rfl, rfl, ?_, rfl, rfl, ?_⟩
  · show (solveLoopFrom t (poll taskId) elapsed 0 n).1 ≠ _
    exact solveLoopFrom_ne_providerError t (poll taskId) elapsed n 0
  · show (solveLoopFrom t (poll2 taskId2) elapsed 0 n).1 ≠ _
    exact solveLoopFrom_ne_providerError t (poll2 taskId2) elapsed n 0

/-- Witness for the amended C9, instantiated at one retry, a 120-second
budget and an always-erroring poll. -/
theorem providerError_exactly_on_create_failure_witness :
    solveCaptchaWithEZCaptcha CreateOutcome.transportError 1 120
        (fun _ _ => PollOutcome.pollError) (fun _ => 10)
      = (Except.error SolveError.providerError, 0) ∧
    solveCaptchaWithEZCaptcha CreateOutcome.decodeError 1 120
        (fun _ _ => PollOutcome.pollError) (fun _ => 10)
      = (Except.error SolveError.providerError, 0) ∧
    (solveCaptchaWithEZCaptcha (CreateOutcome.response "") 1 120
        (fun _ _ => PollOutcome.pollError) (fun _ => 10)).1
      ≠ Except.error SolveError.providerError ∧
    solveCaptchaWith2Captcha CreateOutcome.transportError 1 120
        (fun _ _ => PollOutcome.pollError) (fun _ => 10)
      = (Except.error SolveError.providerError, 0) ∧
    solveCaptchaWith2Captcha CreateOutcome.decodeError 1 120
        (fun _ _ => PollOutcome.pollError) (fun _ => 10)
      = (Except.error SolveError.providerError, 0) ∧
    (solveCaptchaWith2Captcha (CreateOutcome.response 0) 1 120
        (fun _ _ => PollOutcome.pollError) (fun _ => 10)).1
      ≠ Except.error SolveError.providerError :=
  providerError_exactly_on_create_failure 1 120 "" 0
    (fun _ _ => PollOutcome.pollError) (fun _ _ => PollOutcome.pollError)
    (fun _ => 10)

/-- C2 counterexample: status 201 is a 2xx success, yet `submitPromoEntry`
rejects it as a hard failure carrying 201 — the success test is `= 200`,
not "any 2xx". -/
theorem status_201_rejected_despite_2xx :
    submitPromoEntry (HttpOutcome.response ⟨201, []⟩)
      = Except.error (SubmitError.submissionRejected 201) ∧
    200 ≤ 201 ∧ 201 < 300 := by decide

/-- C2 amended: `submitPromoEntry` treats exactly status 200 as success
(capturing the `cf_clearance` cookie), and every other status — other 2xx
statuses included — as the rejection error carrying that status code. -/
theorem submitPromoEntry_success_iff_200 (resp : HttpResponse) :
    submitPromoEntry (HttpOutcome.response resp)
      = if resp.statusCode = 200 then Except.ok (findCfClearance resp.cookies)
        else Except.error (SubmitError.submissionRejected resp.statusCode) := by
  by_cases h : resp.statusCode = 200
  · simp [submitPromoEntry, h]
  · simp [submitPromoEntry, h]

/-- C7: a 200 response whose cookie list carries a `cf_clearance` entry
(preceded only by differently named cookies) yields that entry's value as
the clearance token, and a 200 response with no such cookie yields the
empty token; neither is an error. -/
theorem submitPromoEntry_captures_cf_clearance
    (pre post cookies : List (String × String)) (v : String)
    (hpre : ∀ p ∈ pre, p.1 ≠ "cf_clearance")
    (hnone : ∀ p ∈ cookies, p.1 ≠ "cf_clearance") :
    submitPromoEntry
        (HttpOutcome.response ⟨200, pre ++ ("cf_clearance", v) :: post⟩)
      = Except.ok v ∧
    submitPromoEntry (HttpOutcome.response ⟨200, cookies⟩) = Except.ok "" := by
  constructor
  · simp [submitPromoEntry, findCfClearance_append pre post v hpre]
  · simp [submitPromoEntry, findCfClearance_none cookies hnone]

/-- Witness for C7: a consent cookie before `cf_clearance=tok123` is
skipped and the token is captured; a cookie list with no `cf_clearance`
yields the empty token. -/
theorem submitPromoEntry_captures_cf_clearance_witness :
    submitPromoEntry (HttpOutcome.response ⟨200,
        [("cookieconsent_status", "dismiss")] ++
          ("cf_clearance", "tok123") :: [("other", "x")]⟩)
      = Except.ok "tok123" ∧
    submitPromoEntry (HttpOutcome.response
        ⟨200, [("cookieconsent_status", "dismiss")]⟩) = Except.ok "" :=
  submitPromoEntry_captures_cf_clearance
    [("cookieconsent_status", "dismiss")] [("other", "x")]
    [("cookieconsent_status", "dismiss")] "tok123" (by decide) (by decide)

/-- C5: when the primary submission succeeds with a non-empty clearance
token, exactly 5 secondary submission calls are made and the cycle result
is success (and the submission is logged) for every assignment of outcomes
to the secondary submissions — failures there never change the result. -/
theorem cycle_five_secondaries_best_effort
    (email captchaToken cfClearance : String) (primary : HttpOutcome)
    (secondary : Nat → HttpOutcome)
    (hprim : submitPromoEntry primary = Except.ok cfClearance)
    (hcf : cfClearance ≠ "") :
    (submitEntry email (Except.ok captchaToken) primary secondary).result
      = Except.ok () ∧
    (submitEntry email (Except.ok captchaToken) primary
        secondary).secondaryCalls.length = 5 ∧
    (submitEntry email (Except.ok captchaToken) primary secondary).logged
      = true := by
  unfold submitEntry
  rw [hprim]
  simp [hcf]

/-- Witness for C5: all five secondary submissions come back 403, yet the
cycle result is success with exactly 5 secondary calls made. -/
theorem cycle_five_secondaries_best_effort_witness :
    (submitEntry "a@b.c" (Except.ok "TOKEN")
        (HttpOutcome.response ⟨200, [("cf_clearance", "CLEAR")]⟩)
        (fun _ => HttpOutcome.response ⟨403, []⟩)).result = Except.ok () ∧
    (submitEntry "a@b.c" (Except.ok "TOKEN")
        (HttpOutcome.response ⟨200, [("cf_clearance", "CLEAR")]⟩)
        (fun _ => HttpOutcome.response ⟨403, []⟩)).secondaryCalls.length = 5 ∧
    (submitEntry "a@b.c" (Except.ok "TOKEN")
        (HttpOutcome.response ⟨200, [("cf_clearance", "CLEAR")]⟩)
        (fun _ => HttpOutcome.response ⟨403, []⟩)).logged = true :=
  cycle_five_secondaries_best_effort "a@b.c" "TOKEN" "CLEAR"
    (HttpOutcome.response ⟨200, [("cf_clearance", "CLEAR")]⟩)
    (fun _ => HttpOutcome.response ⟨403, []⟩) (by decide) (by decide)

/-- C6: a primary submission response with a status other than 200 aborts
the cycle with the submission-rejected error carrying that status code; no
secondary submission call is made and no log entry is written. -/
theorem cycle_aborts_on_rejected_primary
    (email captchaToken : String) (resp : HttpResponse)
    (secondary : Nat → HttpOutcome) (h : resp.statusCode ≠ 200) :
    (submitEntry email (Except.ok captchaToken) (HttpOutcome.response resp)
        secondary).result
      = Except.error (CycleError.submissionError
          (SubmitError.submissionRejected resp.statusCode)) ∧
    (submitEntry email (Except.ok captchaToken) (HttpOutcome.response resp)
        secondary).secondaryCalls = [] ∧
    (submitEntry email (Except.ok captchaToken) (HttpOutcome.response resp)
        secondary).logged = false := by
  simp [submitEntry, submitPromoEntry, h]

/-- Witness for C6: submission endpoint returns 403 — the cycle fails with
the rejection carrying 403, with no secondary call and no log entry. -/
theorem cycle_aborts_on_rejected_primary_witness :
    (submitEntry "a@b.c" (Except.ok "TOKEN") (HttpOutcome.response ⟨403, []⟩)
        (fun _ => HttpOutcome.response ⟨200, []⟩)).result
      = Except.error (CycleError.submissionError
          (SubmitError.submissionRejected 403)) ∧
    (submitEntry "a@b.c" (Except.ok "TOKEN") (HttpOutcome.response ⟨403, []⟩)
        (fun _ => HttpOutcome.response ⟨200, []⟩)).secondaryCalls = [] ∧
    (submitEntry "a@b.c" (Except.ok "TOKEN") (HttpOutcome.response ⟨403, []⟩)
        (fun _ => HttpOutcome.response ⟨200, []⟩)).logged = false :=
  cycle_aborts_on_rejected_primary "a@b.c" "TOKEN" ⟨403, []⟩
    (fun _ => HttpOutcome.response ⟨200, []⟩) (by decide)

/-- C8 counterexample: on a concrete successful cycle all five secondary
submissions carry the very CAPTCHA token "TOKEN" the primary submission
consumed — not a fresh one — together with the clearance token. -/
theorem secondary_reuses_primary_token :
    (submitEntry "a@b.c" (Except.ok "TOKEN")
        (HttpOutcome.response ⟨200, [("cf_clearance", "CLEAR")]⟩)
        (fun _ => HttpOutcome.response ⟨200, []⟩)).secondaryCalls
      = List.replicate 5
          { email := "a@b.c", captchaToken := "TOKEN",
            cfClearance := "CLEAR" } := by decide

/-- C8 amended: within one cycle every secondary submission reuses both the
clearance token obtained from the primary submission and the same CAPTCHA
token the primary consumed; no fresh CAPTCHA token is ever used for a
secondary submission. -/
theorem secondary_token_reuse
    (email captchaToken cfClearance : String) (primary : HttpOutcome)
    (secondary : Nat → HttpOutcome)
    (hprim : submitPromoEntry primary = Except.ok cfClearance)
    (hcf : cfClearance ≠ "") (call : SecondaryCall)
    (hcall : call ∈ (submitEntry email (Except.ok captchaToken) primary
        secondary).secondaryCalls) :
    call.captchaToken = captchaToken ∧ call.cfClearance = cfClearance := by
  unfold submitEntry at hcall
  rw [hprim] at hcall
  simp only [hcf] at hcall
  simp only [if_pos hcf, List.mem_map, List.mem_range] at hcall
  obtain ⟨i, _, hc⟩ := hcall
  subst hc
  exact ⟨rfl, rfl⟩

/-- Witness for the amended C8: a secondary call of the concrete successful
cycle indeed carries the primary's token "TOKEN" and clearance "CLEAR". -/
theorem secondary_token_reuse_witness :
    ({ email := "a@b.c", captchaToken := "TOKEN", cfClearance := "CLEAR" } :
        SecondaryCall).captchaToken = "TOKEN" ∧
    ({ email := "a@b.c", captchaToken := "TOKEN", cfClearance := "CLEAR" } :
        SecondaryCall).cfClearance = "CLEAR" :=
  secondary_token_reuse "a@b.c" "TOKEN" "CLEAR"
    (HttpOutcome.response ⟨200, [("cf_clearance", "CLEAR")]⟩)
    (fun _ => HttpOutcome.response ⟨200, []⟩) (by decide) (by decide)
    { email := "a@b.c", captchaToken := "TOKEN", cfClearance := "CLEAR" }
    (by decide)

end Promogen
